import Mathlib

/-!
Verification of the behavior of `add_files_to_xcode.py`: a script that checks
that two hard-coded source files exist under a hard-coded project root,
printing per-file status lines, and on success prints a fixed instruction
block and returns 0; on the first missing file it returns 1 immediately.

The filesystem is modelled as a total map from absolute path strings to the
kind of entry found there.  The direct existence primitive is `os.path.exists`,
which reports `True` for regular files and directories, and `False` when the
path resolves to nothing or when access is denied (the Python call swallows
the OSError and returns `False` in that case).  The whole run is embedded as
a state-passing function: each filesystem operation is given the general
effectful signature `Fs → Fs × α`, so that preservation of the filesystem is
a provable fact rather than a typing accident.
-/

/-- Kind of entry a path resolves to in a filesystem state.  `denied` is a
path for which the underlying stat call fails with a permission error. -/
inductive FsEntry
  | absent
  | file
  | dir
  | denied
  deriving DecidableEq

/-- A filesystem state: what each absolute path string resolves to. -/
def Fs : Type := String → FsEntry

/-- The first hard-coded relative path of the script (the model file). -/
def modelFile : String := "ios/SmartCityGuide/Models/OverpassPOI.swift"

/-- The second hard-coded relative path of the script (the service file). -/
def serviceFile : String := "ios/SmartCityGuide/Services/OverpassAPIService.swift"

/-- `files_to_add` from the script: the fixed list of relative paths. -/
def files_to_add : List String := [modelFile, serviceFile]

/-- `project_root` from the script. -/
def project_root : String := "/Users/dengelma/develop/private/smart-city-guide"

/-- The startup banner line printed first. -/
def bannerText : String := "🚀 Adding new files to Xcode project..."

/-- The per-file success line of the script. -/
def existsLine (p : String) : String := "✅ File exists: " ++ p

/-- The per-file failure line of the script. -/
def notFoundLine (p : String) : String := "❌ File not found: " ++ p

/-- The fixed instruction block printed when every file is present, exactly
as the triple-quoted string of the script (it begins and ends with a
newline). -/
def instructionsText : String :=
  "\n📝 Manual Steps Required:\n\n1. Open Xcode project: /Users/dengelma/develop/private/smart-city-guide/ios/SmartCityGuide.xcodeproj\n\n2. Add these files to the project:\n   - Right-click on 'Models' group → Add Files to \"SmartCityGuide\"\n   - Select: ios/SmartCityGuide/Models/OverpassPOI.swift\n   \n   - Right-click on 'Services' group → Add Files to \"SmartCityGuide\"\n   - Select: ios/SmartCityGuide/Services/OverpassAPIService.swift\n\n3. Make sure both files are added to the SmartCityGuide target\n\n4. Build the project again\n\nAlternatively, we can try to build again - sometimes Xcode auto-detects new files.\n"

/-- Whether a string begins with the path separator, as in the
`b.startswith(sep)` test of `posixpath.join`. -/
def beginsWithSep (s : String) : Bool :=
  match s.data with
  | [] => false
  | c :: _ => c = '/'

/-- Whether a string ends with the path separator, as in the
`path.endswith(sep)` test of `posixpath.join`. -/
def endsWithSep (s : String) : Bool :=
  match s.data.getLast? with
  | some c => c = '/'
  | none => false

/-- `os.path.join` restricted to two arguments, following `posixpath.join`:
an absolute second component replaces the first; otherwise the components
are concatenated, inserting the separator unless the first component is
empty or already ends with it. -/
def os_path_join (a b : String) : String :=
  if beginsWithSep b then b
  else if a = "" || endsWithSep a then a ++ b
  else a ++ "/" ++ b

/-- The absolute path the script builds for a configured relative path:
`os.path.join(project_root, file_path)`. -/
def fullPath (p : String) : String := os_path_join project_root p

/-- `os.path.exists`, with the general effectful signature `Fs → Fs × Bool`:
it reports `true` for files and directories and `false` for absent paths and
permission errors, and never changes the filesystem. -/
def os_path_exists (fs : Fs) (p : String) : Fs × Bool :=
  match fs p with
  | FsEntry.file => (fs, true)
  | FsEntry.dir => (fs, true)
  | FsEntry.absent => (fs, false)
  | FsEntry.denied => (fs, false)

/-- The boolean answer of the existence check alone. -/
def existsB (fs : Fs) (p : String) : Bool := (os_path_exists fs p).2

/-- Everything observable about one run of `main`: the filesystem after the
run, the arguments of the `print` calls in order, the absolute paths handed
to `os.path.exists` in order, and the return value of `main` (which the
script passes to `sys.exit`). -/
structure RunOut where
  fsAfter : Fs
  output : List String
  queried : List String
  code : Nat

/-- The `for file_path in files_to_add` loop of `main`, threading the
filesystem state and accumulating the printed lines and queried paths.  An
existing file appends its success line and continues; a missing file appends
its failure line and returns 1 at once.  An exhausted list prints the
instruction block and returns 0. -/
def runLoop (fs : Fs) (out qs : List String) : List String → RunOut
  | [] => ⟨fs, out ++ [instructionsText], qs, 0⟩
  | p :: rest =>
    let full := os_path_join project_root p
    let res := os_path_exists fs full
    if res.2 then runLoop res.1 (out ++ [existsLine p]) (qs ++ [full]) rest
    else ⟨res.1, out ++ [notFoundLine p], qs ++ [full], 1⟩

/-- One run of `main` on a filesystem state: the banner, then the loop over
`files_to_add`. -/
def run (fs : Fs) : RunOut := runLoop fs [bannerText] [] files_to_add

/-- A line is a not-found line when it starts with the fixed prefix of the
script's failure message. -/
def isNotFoundLine (l : String) : Bool :=
  "❌ File not found: ".data.isPrefixOf l.data

/-- A filesystem where no path resolves to anything. -/
def absentFs : Fs := fun _ => FsEntry.absent

/-- A filesystem where every path is a regular file. -/
def allFileFs : Fs := fun _ => FsEntry.file

/-- A filesystem where every path is a directory. -/
def allDirFs : Fs := fun _ => FsEntry.dir

/-- A filesystem where every stat fails with a permission error. -/
def deniedFs : Fs := fun _ => FsEntry.denied

/-- A filesystem containing exactly the model file's absolute path. -/
def firstOnlyFs : Fs :=
  fun p => if p = fullPath modelFile then FsEntry.file else FsEntry.absent

/-! ## Basic lemmas about the embedding -/

theorem os_path_exists_eq (fs : Fs) (p : String) :
    os_path_exists fs p = (fs, existsB fs p) := by
  cases h : fs p <;> simp [os_path_exists, existsB, h]

theorem existsB_true_iff (fs : Fs) (p : String) :
    existsB fs p = true ↔ (fs p = FsEntry.file ∨ fs p = FsEntry.dir) := by
  cases h : fs p <;> simp [existsB, os_path_exists, h]

theorem existsB_false_iff (fs : Fs) (p : String) :
    existsB fs p = false ↔ (fs p = FsEntry.absent ∨ fs p = FsEntry.denied) := by
  cases h : fs p <;> simp [existsB, os_path_exists, h]

/-- Complete description of the run when the first existence check fails. -/
theorem run_eq_of_first_missing (fs : Fs)
    (h : existsB fs (fullPath modelFile) = false) :
    run fs = ⟨fs, [bannerText, notFoundLine modelFile], [fullPath modelFile], 1⟩ := by
  rw [show fullPath modelFile = os_path_join project_root modelFile from rfl] at h
  simp only [run, files_to_add, runLoop, os_path_exists_eq, h, fullPath]
  simp

/-- Complete description of the run when the first check succeeds and the
second fails. -/
theorem run_eq_of_second_missing (fs : Fs)
    (hA : existsB fs (fullPath modelFile) = true)
    (hB : existsB fs (fullPath serviceFile) = false) :
    run fs = ⟨fs, [bannerText, existsLine modelFile, notFoundLine serviceFile],
              [fullPath modelFile, fullPath serviceFile], 1⟩ := by
  rw [show fullPath modelFile = os_path_join project_root modelFile from rfl] at hA
  rw [show fullPath serviceFile = os_path_join project_root serviceFile from rfl] at hB
  simp only [run, files_to_add, runLoop, os_path_exists_eq, hA, hB, fullPath]
  simp

/-- Complete description of the run when both existence checks succeed. -/
theorem run_eq_of_all_present (fs : Fs)
    (hA : existsB fs (fullPath modelFile) = true)
    (hB : existsB fs (fullPath serviceFile) = true) :
    run fs = ⟨fs, [bannerText, existsLine modelFile, existsLine serviceFile,
                   instructionsText],
              [fullPath modelFile, fullPath serviceFile], 0⟩ := by
  rw [show fullPath modelFile = os_path_join project_root modelFile from rfl] at hA
  rw [show fullPath serviceFile = os_path_join project_root serviceFile from rfl] at hB
  simp only [run, files_to_add, runLoop, os_path_exists_eq, hA, hB, fullPath]
  simp

/-- The loop never changes the filesystem state, whatever the list and the
accumulators are. -/
theorem runLoop_fsAfter (fs : Fs) :
    ∀ (l out qs : List String), (runLoop fs out qs l).fsAfter = fs := by
  intro l
  induction l with
  | nil => intro out qs; rfl
  | cons p rest ih =>
    intro out qs
    cases h : existsB fs (os_path_join project_root p) <;>
      simp [runLoop, os_path_exists_eq, h, ih]

/-! ## Claim theorems -/

/-- C1: the process exit code is 0 exactly when both configured relative
paths, joined to the project root, exist — existence in the sense of the
script's check, which counts regular files and directories and reads a
permission error as absence — and the only other possible exit code is 1,
so any missing configured file gives exit code 1. -/
theorem claim1_exit_code_iff_all_exist (fs : Fs) :
    ((run fs).code = 0 ↔
      (existsB fs (fullPath modelFile) = true ∧
       existsB fs (fullPath serviceFile) = true))
    ∧ ((run fs).code = 0 ∨ (run fs).code = 1) := by
  cases hA : existsB fs (fullPath modelFile) with
  | false => rw [run_eq_of_first_missing fs hA]; simp
  | true =>
    cases hB : existsB fs (fullPath serviceFile) with
    | false => rw [run_eq_of_second_missing fs hA hB]; simp
    | true => rw [run_eq_of_all_present fs hA hB]; simp [hA, hB]

/-- Witness for C1: on a filesystem where every path is a regular file. -/
theorem claim1_witness :
    ((run allFileFs).code = 0 ↔
      (existsB allFileFs (fullPath modelFile) = true ∧
       existsB allFileFs (fullPath serviceFile) = true))
    ∧ ((run allFileFs).code = 0 ∨ (run allFileFs).code = 1) :=
  claim1_exit_code_iff_all_exist allFileFs

/-- C2: when the first configured file (the model file) fails its existence
check, the run prints exactly the banner and one not-found line for the model
file, queries the filesystem only for the model file's absolute path (so the
service file is never checked and never mentioned), prints no instruction
block, and returns 1. -/
theorem claim2_first_missing (fs : Fs)
    (h : existsB fs (fullPath modelFile) = false) :
    run fs = ⟨fs, [bannerText, notFoundLine modelFile], [fullPath modelFile], 1⟩ :=
  run_eq_of_first_missing fs h

/-- Witness for C2: the empty filesystem. -/
theorem claim2_witness :
    run absentFs = ⟨absentFs, [bannerText, notFoundLine modelFile],
      [fullPath modelFile], 1⟩ :=
  claim2_first_missing absentFs rfl

/-- C3: when both configured files pass their existence checks, the run
prints the banner, the two exists lines in list order (model file first,
then service file), then the instruction block verbatim, and returns 0. -/
theorem claim3_all_present (fs : Fs)
    (hA : existsB fs (fullPath modelFile) = true)
    (hB : existsB fs (fullPath serviceFile) = true) :
    run fs = ⟨fs, [bannerText, existsLine modelFile, existsLine serviceFile,
                   instructionsText],
              [fullPath modelFile, fullPath serviceFile], 0⟩ :=
  run_eq_of_all_present fs hA hB

/-- Witness for C3: a filesystem where every path is a regular file. -/
theorem claim3_witness :
    run allFileFs = ⟨allFileFs, [bannerText, existsLine modelFile,
      existsLine serviceFile, instructionsText],
      [fullPath modelFile, fullPath serviceFile], 0⟩ :=
  claim3_all_present allFileFs rfl rfl

/-- C4: when the first configured file passes its existence check and the
second fails, the run prints the banner, the exists line for the model file,
then the not-found line for the service file, no instruction block, and
returns 1. -/
theorem claim4_second_missing (fs : Fs)
    (hA : existsB fs (fullPath modelFile) = true)
    (hB : existsB fs (fullPath serviceFile) = false) :
    run fs = ⟨fs, [bannerText, existsLine modelFile, notFoundLine serviceFile],
              [fullPath modelFile, fullPath serviceFile], 1⟩ :=
  run_eq_of_second_missing fs hA hB

/-- Witness for C4: a filesystem containing only the model file. -/
theorem claim4_witness :
    run firstOnlyFs = ⟨firstOnlyFs,
      [bannerText, existsLine modelFile, notFoundLine serviceFile],
      [fullPath modelFile, fullPath serviceFile], 1⟩ :=
  claim4_second_missing firstOnlyFs (by decide) (by decide)

/-- C5: every absolute path handed to the existence check is the path-join of
the project root with a configured relative path, in list order (the queried
list is `[fullPath modelFile]` or `[fullPath modelFile, fullPath serviceFile]`
and nothing else); for both configured relative paths — each of which has
nested segments — that join equals the root, a separator, and the relative
path, and it differs both from the relative path alone and from the root
alone. -/
theorem claim5_path_join (fs : Fs) :
    ((run fs).queried = [fullPath modelFile]
      ∨ (run fs).queried = [fullPath modelFile, fullPath serviceFile])
    ∧ fullPath modelFile = project_root ++ "/" ++ modelFile
    ∧ fullPath serviceFile = project_root ++ "/" ++ serviceFile
    ∧ fullPath modelFile ≠ modelFile
    ∧ fullPath serviceFile ≠ serviceFile
    ∧ fullPath modelFile ≠ project_root
    ∧ fullPath serviceFile ≠ project_root := by
  constructor
  · cases hA : existsB fs (fullPath modelFile) with
    | false => rw [run_eq_of_first_missing fs hA]; left; rfl
    | true =>
      cases hB : existsB fs (fullPath serviceFile) with
      | false => rw [run_eq_of_second_missing fs hA hB]; right; rfl
      | true => rw [run_eq_of_all_present fs hA hB]; right; rfl
  · refine ⟨?_, ?_, ?_, ?_, ?_, ?_⟩ <;> decide

/-- Witness for C5: the composed path for the model file on the empty
filesystem. -/
theorem claim5_witness :
    fullPath modelFile = project_root ++ "/" ++ modelFile :=
  (claim5_path_join absentFs).2.1

/-- C6 as stated is false: on a filesystem where every path is a directory,
both existence checks succeed, so the run returns 0 and emits no not-found
line — a directory is not treated as "not found". -/
theorem claim6_counterexample :
    (run allDirFs).code = 0
    ∧ notFoundLine modelFile ∉ (run allDirFs).output
    ∧ notFoundLine serviceFile ∉ (run allDirFs).output := by
  rw [run_eq_of_all_present allDirFs rfl rfl]
  refine ⟨rfl, by decide, by decide⟩

/-- C6 (amended): the existence check makes no distinction between "path does
not exist" and "permission denied" — a configured path in either condition is
treated as "not found" (failure line for the first such path, early
termination, failure result) — while a path that resolves to a directory is
treated as found, exactly like a regular file. -/
theorem claim6_amended (fs : Fs) :
    ((fs (fullPath modelFile) = FsEntry.absent ∨
      fs (fullPath modelFile) = FsEntry.denied) →
      run fs = ⟨fs, [bannerText, notFoundLine modelFile], [fullPath modelFile], 1⟩)
    ∧ (existsB fs (fullPath modelFile) = true →
      (fs (fullPath serviceFile) = FsEntry.absent ∨
       fs (fullPath serviceFile) = FsEntry.denied) →
      run fs = ⟨fs, [bannerText, existsLine modelFile, notFoundLine serviceFile],
                [fullPath modelFile, fullPath serviceFile], 1⟩)
    ∧ (∀ p : String, (fs p = FsEntry.file ∨ fs p = FsEntry.dir) →
        existsB fs p = true) := by
  refine ⟨?_, ?_, ?_⟩
  · intro h
    exact run_eq_of_first_missing fs ((existsB_false_iff fs _).2 h)
  · intro hA hB
    exact run_eq_of_second_missing fs hA ((existsB_false_iff fs _).2 hB)
  · intro p h
    exact (existsB_true_iff fs p).2 h

/-- Witness for C6 (amended): a permission-denied model file behaves exactly
like a missing one. -/
theorem claim6_witness :
    run deniedFs = ⟨deniedFs, [bannerText, notFoundLine modelFile],
      [fullPath modelFile], 1⟩ :=
  (claim6_amended deniedFs).1 (Or.inr rfl)

/-- C7: the run is a deterministic function of the filesystem state: two runs
over pointwise equal filesystem states yield character-identical output and
the same exit code, so a second run over an unchanged state repeats the
first. -/
theorem claim7_deterministic (fs1 fs2 : Fs) (h : ∀ q, fs1 q = fs2 q) :
    (run fs1).output = (run fs2).output ∧ (run fs1).code = (run fs2).code := by
  have e : fs1 = fs2 := funext h
  rw [e]
  exact ⟨rfl, rfl⟩

/-- Witness for C7: two runs over the empty filesystem. -/
theorem claim7_witness :
    (run absentFs).output = (run absentFs).output
    ∧ (run absentFs).code = (run absentFs).code :=
  claim7_deterministic absentFs absentFs (fun _ => rfl)

/-- C8: the run never changes the filesystem: whatever the state and whatever
the outcome, the state after the run is the state before it, so the only
side effect is the produced output. -/
theorem claim8_no_fs_mutation (fs : Fs) : (run fs).fsAfter = fs :=
  runLoop_fsAfter fs files_to_add [bannerText] []

/-- Witness for C8: the empty filesystem is unchanged. -/
theorem claim8_witness : (run absentFs).fsAfter = absentFs :=
  claim8_no_fs_mutation absentFs

/-- C9: on every filesystem state the run terminates (it is a total function)
and its return value is 0 or 1 — no other value and no escaping exception is
possible. -/
theorem claim9_code_zero_or_one (fs : Fs) :
    (run fs).code = 0 ∨ (run fs).code = 1 := by
  cases hA : existsB fs (fullPath modelFile) with
  | false => rw [run_eq_of_first_missing fs hA]; right; rfl
  | true =>
    cases hB : existsB fs (fullPath serviceFile) with
    | false => rw [run_eq_of_second_missing fs hA hB]; right; rfl
    | true => rw [run_eq_of_all_present fs hA hB]; left; rfl

/-- Witness for C9: on the empty filesystem. -/
theorem claim9_witness :
    (run absentFs).code = 0 ∨ (run absentFs).code = 1 :=
  claim9_code_zero_or_one absentFs

/-- C10: in every run at most one printed line is a not-found line, and any
not-found line that is printed is the last line of the whole run (hence the
final per-file line). -/
theorem claim10_at_most_one_not_found (fs : Fs) :
    (run fs).output.countP (fun l => isNotFoundLine l) ≤ 1
    ∧ ∀ l ∈ (run fs).output, isNotFoundLine l = true →
        (run fs).output.getLast? = some l := by
  cases hA : existsB fs (fullPath modelFile) with
  | false =>
    rw [run_eq_of_first_missing fs hA]
    dsimp only
    exact ⟨by decide, by decide⟩
  | true =>
    cases hB : existsB fs (fullPath serviceFile) with
    | false =>
      rw [run_eq_of_second_missing fs hA hB]
      dsimp only
      exact ⟨by decide, by decide⟩
    | true =>
      rw [run_eq_of_all_present fs hA hB]
      dsimp only
      exact ⟨by decide, by decide⟩

/-- Witness for C10: on the empty filesystem the single not-found line is the
last line printed. -/
theorem claim10_witness :
    (run absentFs).output.getLast? = some (notFoundLine modelFile) :=
  (claim10_at_most_one_not_found absentFs).2 (notFoundLine modelFile)
    (by decide) (by decide)
